import Mathlib

/-
Verification of the Veestributes backend core (distribution workflow and
metadata pipeline) against its specification.

The Python source in src/Backend is shallowly embedded below:
pure functions become Lean functions, exceptions become `Except`,
and interactions with the filesystem, the mutagen tag library and the
database are represented by explicit oracles (structures of functions /
explicit inputs).  Machine integers are `Int`/`Nat` (Python integers are
unbounded, so no modular wrap is needed).
-/

set_option autoImplicit false

namespace Veestributes

/-! ## Data model: audio metadata (metadata_processor.py) -/

/-- Embedded artwork as extracted by `_extract_artwork`
(`data` raw bytes, `mime_type`, `description`). -/
structure Artwork where
  data : List Nat
  mime_type : String
  description : String
deriving DecidableEq

/-- The normalized metadata dict built by `extract_metadata`
(metadata_processor.py lines 56-71).  Mutagen `info` fields are the four
numeric fields; the tag fields are initialised to `None` and filled from
the container-specific tag mapping. -/
structure AudioMetadata where
  duration : Int
  bitrate : Option Int
  sample_rate : Int
  channels : Int
  title : Option String := none
  artist : Option String := none
  album : Option String := none
  genre : Option String := none
  year : Option String := none
  track_number : Option String := none
  album_artist : Option String := none
  composer : Option String := none
  lyrics : Option String := none
  artwork : Option Artwork := none
deriving DecidableEq

/-! ## Path handling (os.path.splitext / str.lower) -/

/-- Python `str.rfind` for a single character over a character list:
index of the last occurrence, `-1` when absent. -/
def rfind (c : Char) : List Char → Int
  | [] => -1
  | x :: xs =>
      let r := rfind c xs
      if r ≥ 0 then r + 1 else if x = c then 0 else -1

/-- The extension component of `os.path.splitext` (posix rules, as used at
metadata_processor.py line 47): the suffix from the last dot of the final
path component, provided some non-dot character of that component precedes
it (so dotfiles such as `.bashrc` have no extension). -/
def splitextExt (p : List Char) : List Char :=
  let sepIndex := rfind '/' p
  let dotIndex := rfind '.' p
  if sepIndex < dotIndex ∧
      ((p.drop (sepIndex + 1).toNat).take (dotIndex - (sepIndex + 1)).toNat).any
        (fun c => c ≠ '.') then
    p.drop dotIndex.toNat
  else
    []

/-- Python `str.lower` (ASCII case fold, which is all the source relies on). -/
def strLower (s : String) : String :=
  String.mk (s.toList.map Char.toLower)

/-- `os.path.splitext(file_path)[1].lower()` as computed at
metadata_processor.py line 47. -/
def fileExtOf (file_path : String) : String :=
  strLower (String.mk (splitextExt file_path.toList))

/-- The keys of `MetadataProcessor.SUPPORTED_FORMATS`
(metadata_processor.py lines 22-29). -/
def supportedExts : List String :=
  [".mp3", ".flac", ".wv", ".ogg", ".aac", ".m4a"]

/-! ## Extraction (extract_metadata) -/

/-- The failure modes of `extract_metadata`: `FileNotFoundError` (line 45),
`ValueError` for an unsupported extension (line 50), and the re-raised
low-level mutagen exception (lines 94-96).  Each carries `str(e)`. -/
inductive ExtractError where
  | fileNotFound (msg : String)
  | unsupportedFormat (msg : String)
  | corruptAudio (msg : String)
deriving DecidableEq

/-- `str(e)` of an extraction failure. -/
def ExtractError.msg : ExtractError → String
  | .fileNotFound m => m
  | .unsupportedFormat m => m
  | .corruptAudio m => m

/-- Oracle for the effectful collaborators of the metadata processor:
`pathExists` is `os.path.exists`, `parse` is the whole mutagen interaction
of the `try` block (container load, info fields, tag mapping, artwork) which
either yields the metadata dict or raises, and `getsize` is
`os.path.getsize` (which raises `OSError` when the file vanishes). -/
structure FileSystem where
  pathExists : String → Bool
  parse : String → Except String AudioMetadata
  getsize : String → Except String Int

/-- `MetadataProcessor.extract_metadata` (metadata_processor.py lines 34-96):
missing path fails first, then an unsupported (lower-cased) extension, then
a throwing low-level parse is re-raised. -/
def extract_metadata (fs : FileSystem) (file_path : String) :
    Except ExtractError AudioMetadata :=
  if fs.pathExists file_path = false then
    Except.error (ExtractError.fileNotFound ("Audio file not found: " ++ file_path))
  else
    let file_ext := fileExtOf file_path
    if supportedExts.contains file_ext = false then
      Except.error (ExtractError.unsupportedFormat ("Unsupported audio format: " ++ file_ext))
    else
      match fs.parse file_path with
      | Except.ok audio => Except.ok audio
      | Except.error e => Except.error (ExtractError.corruptAudio e)

/-! ## Validation (validate_audio_file) -/

/-- The validation dict (`is_valid`, `errors`, `warnings`) built at
metadata_processor.py lines 199-203. -/
structure Validation where
  is_valid : Bool
  errors : List String
  warnings : List String
deriving DecidableEq

/-- The four policy rules of `validate_audio_file`
(metadata_processor.py lines 205-225), applied to the extracted metadata and
the `os.path.getsize` result, mirroring the source step by step: each rule
appends independently, and `is_valid` is flipped to `False` at the end iff
the error list is non-empty.  The bitrate guard is the Python truthiness
conjunction of line 214, i.e. the bitrate must be truthy (present and
non-zero) and below 128000. -/
def validate_rules (metadata : AudioMetadata) (file_size : Int) : Validation :=
  let errors0 : List String := []
  let warnings0 : List String := []
  let errors1 :=
    if metadata.duration < 30 then
      errors0 ++ ["Audio file must be at least 30 seconds long"]
    else errors0
  let warnings1 :=
    if metadata.sample_rate < 44100 then
      warnings0 ++ ["Sample rate is below 44.1kHz"]
    else warnings0
  let warnings2 :=
    match metadata.bitrate with
    | some b =>
        if b ≠ 0 ∧ b < 128000 then warnings1 ++ ["Bitrate is below 128kbps"]
        else warnings1
    | none => warnings1
  let warnings3 :=
    if file_size < 480000 then
      warnings2 ++ ["File size seems unusually small"]
    else warnings2
  let is_valid := if errors1 ≠ [] then false else true
  { is_valid := is_valid, errors := errors1, warnings := warnings3 }

/-- `MetadataProcessor.validate_audio_file` (metadata_processor.py lines
185-232).  Any exception of the `try` block — extraction failure or a
throwing `os.path.getsize` — is caught and converted into the single-error
result of lines 227-232; the function itself never raises. -/
def validate_audio_file (fs : FileSystem) (file_path : String) : Validation :=
  match extract_metadata fs file_path with
  | Except.error e =>
      { is_valid := false,
        errors := ["Could not validate audio file: " ++ e.msg],
        warnings := [] }
  | Except.ok metadata =>
      match fs.getsize file_path with
      | Except.error e =>
          { is_valid := false,
            errors := ["Could not validate audio file: " ++ e],
            warnings := [] }
      | Except.ok file_size => validate_rules metadata file_size

/-! ## Artwork processing (process_artwork) -/

/-- The decoded input image as `PIL.Image.open` presents it to
`process_artwork`: pixel dimensions and color mode.  The raw byte payloads
are irrelevant to the control flow and are not modelled. -/
structure ImageData where
  width : Nat
  height : Nat
  mode : String
deriving DecidableEq

/-- The result dict of `process_artwork` (metadata_processor.py lines
268-274) together with the save parameters of line 265: the output is
re-encoded as JPEG at quality 85, in the (possibly converted)
color mode. -/
structure ProcessedArtwork where
  width : Nat
  height : Nat
  mode : String
  format : String
  quality : Nat
deriving DecidableEq

/-- PIL `round_aspect`: the scaled dimension `n / d` rounded to the nearest
integer (ties to the floor), clamped to at least 1. -/
def roundAspect (n d : Nat) : Nat :=
  max (if 2 * (n % d) ≤ d then n / d else n / d + 1) 1

/-- Dimensions produced by PIL `Image.thumbnail` for a `(mw, mh)` bounding
box (modelled from Pillow: no-op when the image already fits, otherwise the
aspect-preserving fit rounded by `round_aspect`). -/
def thumbnailDims (w h mw mh : Nat) : Nat × Nat :=
  if w ≤ mw ∧ h ≤ mh then (w, h)
  else if w * mh ≤ mw * h then (roundAspect (mh * w) h, mh)
  else (mw, roundAspect (mw * h) w)

/-- `MetadataProcessor.process_artwork` (metadata_processor.py lines
234-277) on a decoded image: reject either dimension below 1400 (the raised
`ValueError` is re-wrapped by the outer handler of line 277), downscale via
`Image.thumbnail(max_size, LANCZOS)` only when a dimension exceeds the box,
convert any mode outside RGB/RGBA to RGB, and re-encode as JPEG at quality
85.  The JPEG byte encoding itself is an external collaborator and is
modelled as succeeding. -/
def process_artwork (image : ImageData) (max_size : Nat × Nat := (1400, 1400)) :
    Except String ProcessedArtwork :=
  if image.width < 1400 ∨ image.height < 1400 then
    Except.error "Could not process artwork: Artwork must be at least 1400x1400 pixels"
  else
    let dims :=
      if max_size.1 < image.width ∨ max_size.2 < image.height then
        thumbnailDims image.width image.height max_size.1 max_size.2
      else (image.width, image.height)
    let mode := if image.mode = "RGB" ∨ image.mode = "RGBA" then image.mode else "RGB"
    Except.ok
      { width := dims.1, height := dims.2, mode := mode, format := "JPEG", quality := 85 }

/-! ## Distribution data model (models.py) -/

/-- `Platform` rows (models.py lines 149-169), restricted to the fields the
distribution workflow reads. -/
structure Platform where
  name : String
  is_active : Bool
deriving DecidableEq

/-- The per-platform entry stored into `distribution_results`
(tasks.py lines 116-127).  A success entry has keys
`status/url/submission_id`; a failure entry has keys `status/error`; absent
keys are `none`. -/
structure PlatformResult where
  status : String
  url : Option String := none
  submission_id : Option String := none
  error : Option String := none
deriving DecidableEq

/-- `Release` rows (models.py lines 34-66), restricted to the fields the
distribution workflow reads and writes.  `distribution_status` is the
results dict, kept in insertion order (platform names are unique by the
schema). -/
structure Release where
  id : Int
  status : String
  distribution_status : List (String × PlatformResult) := []
deriving DecidableEq

/-- A `DistributionLog` row (models.py lines 171-194), as would be written
by the distribution flow; the fields are irrelevant because the routes
under verification never write one. -/
structure DistributionLogRow where
  release_id : Int
  platform_id : Int
  status : String
deriving DecidableEq

/-! ## Distribution task (tasks.py) -/

/-- The url / submission id dict returned by `distribute_to_platform`. -/
structure SubmissionResult where
  url : String
  submission_id : String
deriving DecidableEq

/-- Python `.replace(" ", "")`. -/
def removeSpaces (s : String) : String :=
  String.mk (s.toList.filter (fun c => c ≠ ' '))

/-- `distribute_to_platform` (tasks.py lines 144-183): a fixed URL/id
templating policy keyed on the lower-cased platform name and the release
id. -/
def distribute_to_platform (release : Release) (platform : Platform) : SubmissionResult :=
  let n := strLower platform.name
  if n = "spotify" then
    { url := "https://open.spotify.com/album/" ++ toString release.id,
      submission_id := "spotify_" ++ toString release.id }
  else if n = "apple music" then
    { url := "https://music.apple.com/album/" ++ toString release.id,
      submission_id := "apple_" ++ toString release.id }
  else if n = "youtube music" then
    { url := "https://music.youtube.com/playlist?list=" ++ toString release.id,
      submission_id := "youtube_" ++ toString release.id }
  else
    { url := "https://" ++ removeSpaces n ++ ".com/release/" ++ toString release.id,
      submission_id := n ++ "_" ++ toString release.id }

/-- The body of one fan-out iteration (tasks.py lines 108-127): the
`try/except` around the submission turns a raised exception into a
`failed` entry carrying `str(e)`, and a normal return into a `success`
entry carrying the url and submission id. -/
def attemptEntry (res : Except String SubmissionResult) : PlatformResult :=
  match res with
  | Except.ok result =>
      { status := "success", url := some result.url,
        submission_id := some result.submission_id }
  | Except.error e => { status := "failed", error := some e }

/-- The fan-out loop of `distribute_release` (tasks.py lines 107-127) over
the platform list, parameterised by the submission call (which models
`distribute_to_platform` as executed, including any exception it or the
platform integration raises). -/
def fanOut (submit : Platform → Except String SubmissionResult) :
    List Platform → List (String × PlatformResult)
  | [] => []
  | platform :: rest =>
      (platform.name, attemptEntry (submit platform)) :: fanOut submit rest

/-- The Celery task `distribute_release` (tasks.py lines 87-142) after the
release lookup: `Platform.query.all()` is the given platform list, the
fan-out loop fills `distribution_results`, and lines 130-132 store the
results and unconditionally set the release status to `distributed`. -/
def Tasks.distribute_release (submit : Platform → Except String SubmissionResult)
    (release : Release) (platforms : List Platform) : Release :=
  let distribution_results := fanOut submit platforms
  { release with distribution_status := distribution_results, status := "distributed" }

/-! ## Distribution route (routes.py) -/

/-- A JSON response of the distribute route: HTTP status code and the
`error` or `message` payload. -/
structure ApiResponse where
  statusCode : Nat
  body : String
deriving DecidableEq

/-- The route `POST /releases/<id>/distribute` (routes.py lines 365-393)
after the `Release.query.filter_by(...)` lookup: `none` means no release of
the current user has the id.  The result is the stored release state, the
JSON response, and the list of `DistributionLog` rows written — the route
writes none on any path (distribution itself is only a TODO there).
Commit is modelled as succeeding (persistence is an external
collaborator; its failure path rolls back). -/
def Routes.distribute_release (release : Option Release) :
    Option Release × ApiResponse × List DistributionLogRow :=
  match release with
  | none => (none, { statusCode := 404, body := "Release not found" }, [])
  | some rel =>
      if rel.status ≠ "draft" then
        (some rel, { statusCode := 400, body := "Release is not ready for distribution" }, [])
      else
        (some { rel with status := "processing" },
         { statusCode := 200, body := "Distribution process started" }, [])

/-! ## Housekeeping (cleanup_old_files) -/

/-- One path yielded by the `glob` scan in `cleanup_old_files`, together
with the answers the filesystem gives at each step of the loop body:
`is_file` is `os.path.isfile` at loop time, `mtime` the
`os.path.getmtime` result, and `present_at_remove` whether `os.remove`
succeeds (false models the file vanishing between scan and delete, which
raises `OSError`). -/
structure ScannedFile where
  path : String
  is_file : Bool
  mtime : Int
  present_at_remove : Bool
deriving DecidableEq

/-- The loop of `cleanup_old_files` (tasks.py lines 332-340) over the
globbed paths, returning the successfully removed paths in order: a regular
file strictly older than the cutoff is removed; an `OSError` from
`os.remove` is caught, logged and the loop continues.  (The early return
for a missing directory, lines 322-323, corresponds to an empty scan
list.) -/
def cleanup_old_files (cutoff_time : Int) : List ScannedFile → List String
  | [] => []
  | f :: rest =>
      if f.is_file then
        if f.mtime < cutoff_time then
          if f.present_at_remove then f.path :: cleanup_old_files cutoff_time rest
          else cleanup_old_files cutoff_time rest
        else cleanup_old_files cutoff_time rest
      else cleanup_old_files cutoff_time rest

/-! ## Concrete fixtures used to instantiate the theorems -/

/-- Number of entries of the results dict with the given status. -/
def countStatus (s : String) (results : List (String × PlatformResult)) : Nat :=
  (results.filter (fun e => e.2.status = s)).length

/-- A release as the distribution task sees it (already moved to
processing by the route). -/
def sampleRelease : Release := { id := 7, status := "processing" }

/-- Three active platform targets with the seeded names. -/
def threePlatforms : List Platform :=
  [{ name := "Spotify", is_active := true },
   { name := "Apple Music", is_active := true },
   { name := "YouTube Music", is_active := true }]

/-- A submission call that always returns normally. -/
def submitOk : Platform → Except String SubmissionResult :=
  fun platform => Except.ok (distribute_to_platform sampleRelease platform)

/-- A submission call that raises for exactly one platform name and
returns normally for the others. -/
def submitOneFailing : Platform → Except String SubmissionResult :=
  fun platform =>
    if platform.name = "Apple Music" then Except.error "connection refused"
    else Except.ok (distribute_to_platform sampleRelease platform)

/-- A platform target whose active flag is off. -/
def inactivePlatform : Platform := { name := "Spotify", is_active := false }

/-- Metadata one second below the duration floor, otherwise healthy. -/
def shortMeta : AudioMetadata :=
  { duration := 29, bitrate := some 160000, sample_rate := 44100, channels := 2 }

/-- Healthy metadata at the rule boundaries. -/
def goodMeta : AudioMetadata :=
  { duration := 30, bitrate := some 160000, sample_rate := 44100, channels := 2 }

/-- Healthy metadata whose bitrate field is present but zero (falsy in
Python). -/
def zeroBitrateMeta : AudioMetadata :=
  { duration := 30, bitrate := some 0, sample_rate := 44100, channels := 2 }

/-- A filesystem oracle on which every path except one exists, low-level
parsing always raises, and size queries succeed. -/
def witnessFS : FileSystem :=
  { pathExists := fun p => p != "missing.mp3",
    parse := fun _ => Except.error "cannot read file header",
    getsize := fun _ => Except.ok 500000 }

/-- A release already in processing, for the route precondition. -/
def processingRelease : Release := { id := 3, status := "processing" }

/-- An image below the minimum resolution. -/
def smallImage : ImageData := { width := 1000, height := 1000, mode := "RGB" }

/-- An oversized image in a palette color mode. -/
def bigImage : ImageData := { width := 2000, height := 2000, mode := "P" }

/-- A stale regular file that is removed normally. -/
def oldFileA : ScannedFile :=
  { path := "/app/temp/a.tmp", is_file := true, mtime := 10, present_at_remove := true }

/-- A stale regular file that vanishes between scan and delete. -/
def vanishedFile : ScannedFile :=
  { path := "/app/temp/gone.tmp", is_file := true, mtime := 10, present_at_remove := false }

/-- A fresh regular file that must be retained. -/
def newFile : ScannedFile :=
  { path := "/app/temp/new.tmp", is_file := true, mtime := 500, present_at_remove := true }

/-! ## Helper lemmas about the fan-out loop -/

theorem fanOut_length (submit : Platform → Except String SubmissionResult)
    (platforms : List Platform) : (fanOut submit platforms).length = platforms.length := by
  induction platforms with
  | nil => rfl
  | cons p rest ih => simp [fanOut, ih]

theorem fanOut_get (submit : Platform → Except String SubmissionResult)
    (platforms : List Platform) (i : Nat) :
    (fanOut submit platforms).get? i =
      (platforms.get? i).map (fun p => (p.name, attemptEntry (submit p))) := by
  induction platforms generalizing i with
  | nil => simp [fanOut]
  | cons p rest ih =>
      cases i with
      | zero => simp [fanOut]
      | succ j => simpa [fanOut] using ih j

theorem fanOut_map_fst (submit : Platform → Except String SubmissionResult)
    (platforms : List Platform) :
    (fanOut submit platforms).map Prod.fst = platforms.map Platform.name := by
  induction platforms with
  | nil => rfl
  | cons p rest ih => simp [fanOut, ih]

/-! ## Helper lemmas about strings -/

theorem str_len0 (s : String) (h : s.length = 0) : s = "" := by
  cases s with
  | mk data =>
      cases data with
      | nil => rfl
      | cons c cs => simp [String.length] at h

theorem append_ne_empty_left {a : String} (b : String) (ha : a ≠ "") : a ++ b ≠ "" := by
  intro h
  have hl := congrArg String.length h
  rw [String.length_append] at hl
  exact ha (str_len0 a (Nat.eq_zero_of_add_eq_zero_right hl))

theorem append_ne_empty_right (a : String) {b : String} (hb : b ≠ "") : a ++ b ≠ "" := by
  intro h
  have hl := congrArg String.length h
  rw [String.length_append] at hl
  exact hb (str_len0 b (Nat.eq_zero_of_add_eq_zero_left hl))

/-! ## Helper lemmas about the thumbnail arithmetic -/

theorem lt_div_succ_mul (a b : Nat) (hb : 0 < b) : a < (a / b + 1) * b := by
  have h1 := Nat.div_add_mod a b
  have h2 := Nat.mod_lt a hb
  have h3 : (a / b + 1) * b = b * (a / b) + b := by ring
  omega

theorem roundAspect_le {n d k : Nat} (hd : 0 < d) (hk : 1 ≤ k) (h : n ≤ k * d) :
    roundAspect n d ≤ k := by
  unfold roundAspect
  have hq : n / d ≤ k := by
    have h2 := Nat.div_le_div_right (c := d) h
    rwa [Nat.mul_div_cancel k hd] at h2
  apply max_le _ hk
  split_ifs with hif
  · exact hq
  · rcases Nat.eq_or_lt_of_le hq with heq | hlt
    · exfalso
      have h1 : k * d ≤ n := by
        have h2 := Nat.div_mul_le_self n d
        rw [heq] at h2
        exact h2
      have hn : n = k * d := le_antisymm h h1
      have hmod : n % d = 0 := by rw [hn]; exact Nat.mul_mod_left k d
      omega
    · omega

theorem roundAspect_div_le {n d : Nat} : n / d ≤ roundAspect n d := by
  unfold roundAspect
  have h : n / d ≤ (if 2 * (n % d) ≤ d then n / d else n / d + 1) := by
    split_ifs <;> omega
  exact le_trans h (le_max_left _ _)

theorem roundAspect_le_div_add_one {n d : Nat} : roundAspect n d ≤ n / d + 1 := by
  unfold roundAspect
  apply max_le
  · split_ifs with hif
    · exact Nat.le_succ _
    · exact le_refl _
  · exact Nat.succ_le_succ (Nat.zero_le _)

/-- The 1400x1400 bounding box produced by the thumbnail call: the result
fits in the box, never exceeds the original dimensions, and keeps the
aspect ratio up to integer rounding. -/
theorem thumbnail_bounds {w h : Nat} (hw : 1400 ≤ w) (hh : 1400 ≤ h) :
    (thumbnailDims w h 1400 1400).1 ≤ 1400 ∧ (thumbnailDims w h 1400 1400).2 ≤ 1400 ∧
    (thumbnailDims w h 1400 1400).1 ≤ w ∧ (thumbnailDims w h 1400 1400).2 ≤ h ∧
    (thumbnailDims w h 1400 1400).1 * h ≤ (thumbnailDims w h 1400 1400).2 * w + h + w ∧
    (thumbnailDims w h 1400 1400).2 * w ≤ (thumbnailDims w h 1400 1400).1 * h + h + w := by
  unfold thumbnailDims
  split_ifs with hfit hasp
  · obtain ⟨h1, h2⟩ := hfit
    refine ⟨h1, h2, le_refl w, le_refl h, ?_, ?_⟩ <;>
      · simp only
        rw [Nat.mul_comm]
        omega
  · have hwh : w ≤ h := by
      have h2 : w * 1400 ≤ h * 1400 := by rw [Nat.mul_comm 1400 h] at hasp; exact hasp
      exact Nat.le_of_mul_le_mul_right h2 (by norm_num)
    have hhgt : 1400 < h := by
      rcases not_and_or.mp hfit with hc | hc <;> omega
    have hhpos : 0 < h := by omega
    have hx1400 : roundAspect (1400 * w) h ≤ 1400 :=
      roundAspect_le hhpos (by norm_num) (Nat.mul_le_mul_left 1400 hwh)
    have hxw : roundAspect (1400 * w) h ≤ w := by
      apply roundAspect_le hhpos (le_trans (by norm_num) hw)
      calc 1400 * w = w * 1400 := Nat.mul_comm 1400 w
        _ ≤ w * h := Nat.mul_le_mul_left w (le_of_lt hhgt)
    refine ⟨hx1400, le_refl 1400, hxw, le_of_lt hhgt, ?_, ?_⟩
    · simp only
      have hub : roundAspect (1400 * w) h ≤ (1400 * w) / h + 1 := roundAspect_le_div_add_one
      calc roundAspect (1400 * w) h * h ≤ ((1400 * w) / h + 1) * h :=
            Nat.mul_le_mul_right h hub
        _ = (1400 * w) / h * h + h := by ring
        _ ≤ 1400 * w + h := by
            have := Nat.div_mul_le_self (1400 * w) h
            omega
        _ ≤ 1400 * w + h + w := by omega
    · simp only
      have hlb : (1400 * w) / h ≤ roundAspect (1400 * w) h := roundAspect_div_le
      have hlt : 1400 * w < ((1400 * w) / h + 1) * h := lt_div_succ_mul _ h hhpos
      have hmul : ((1400 * w) / h) * h ≤ roundAspect (1400 * w) h * h :=
        Nat.mul_le_mul_right h hlb
      have hexp : ((1400 * w) / h + 1) * h = ((1400 * w) / h) * h + h := by ring
      omega
  · have hwh : h < w := by
      have h2 : ¬(w * 1400 ≤ 1400 * h) := hasp
      rw [Nat.mul_comm w 1400] at h2
      have h3 : 1400 * h < 1400 * w := lt_of_not_le h2
      exact Nat.lt_of_mul_lt_mul_left h3
    have hwgt : 1400 < w := by
      rcases not_and_or.mp hfit with hc | hc <;> omega
    have hwpos : 0 < w := by omega
    have hy1400 : roundAspect (1400 * h) w ≤ 1400 :=
      roundAspect_le hwpos (by norm_num) (Nat.mul_le_mul_left 1400 (le_of_lt hwh))
    have hyh : roundAspect (1400 * h) w ≤ h := by
      apply roundAspect_le hwpos (le_trans (by norm_num) hh)
      calc 1400 * h = h * 1400 := Nat.mul_comm 1400 h
        _ ≤ h * w := Nat.mul_le_mul_left h (le_of_lt hwgt)
    refine ⟨le_refl 1400, hy1400, le_of_lt hwgt, hyh, ?_, ?_⟩
    · simp only
      have hlb : (1400 * h) / w ≤ roundAspect (1400 * h) w := roundAspect_div_le
      have hlt : 1400 * h < ((1400 * h) / w + 1) * w := lt_div_succ_mul _ w hwpos
      have hmul : ((1400 * h) / w) * w ≤ roundAspect (1400 * h) w * w :=
        Nat.mul_le_mul_right w hlb
      have hexp : ((1400 * h) / w + 1) * w = ((1400 * h) / w) * w + w := by ring
      omega
    · simp only
      have hub : roundAspect (1400 * h) w ≤ (1400 * h) / w + 1 := roundAspect_le_div_add_one
      calc roundAspect (1400 * h) w * w ≤ ((1400 * h) / w + 1) * w :=
            Nat.mul_le_mul_right w hub
        _ = (1400 * h) / w * w + w := by ring
        _ ≤ 1400 * h + w := by
            have := Nat.div_mul_le_self (1400 * h) w
            omega
        _ ≤ 1400 * h + h + w := by omega

/-! ## Claim theorems -/

/-- C1: for every release and every list of platform targets, once the
fan-out loop of the distribution task completes, the release status is set
to distributed regardless of how many attempts failed; and with the three
seeded platforms where exactly the second submission raises, the results
hold exactly 2 success entries and 1 failed entry and the release ends
distributed. -/
theorem release_distributed_regardless_of_failures :
    (∀ (submit : Platform → Except String SubmissionResult) (release : Release)
        (platforms : List Platform),
        (Tasks.distribute_release submit release platforms).status = "distributed") ∧
    (Tasks.distribute_release submitOneFailing sampleRelease threePlatforms).status
        = "distributed" ∧
    countStatus "success"
        (Tasks.distribute_release submitOneFailing sampleRelease
          threePlatforms).distribution_status = 2 ∧
    countStatus "failed"
        (Tasks.distribute_release submitOneFailing sampleRelease
          threePlatforms).distribution_status = 1 := by
  refine ⟨fun submit release platforms => rfl, rfl, ?_, ?_⟩ <;> decide

/-- C2: when the stored release status is not draft, the distribute route
answers the 400 invalid-state error, leaves the release unchanged, and
writes no DistributionLog row. -/
theorem distribute_route_rejects_non_draft (rel : Release) (h : rel.status ≠ "draft") :
    Routes.distribute_release (some rel) =
      (some rel, { statusCode := 400, body := "Release is not ready for distribution" }, []) := by
  simp [Routes.distribute_release, h]

theorem distribute_route_rejects_non_draft_witness :
    Routes.distribute_release (some processingRelease) =
      (some processingRelease,
       { statusCode := 400, body := "Release is not ready for distribution" }, []) :=
  distribute_route_rejects_non_draft processingRelease (by decide)

/-- C3: the fan-out isolates per-platform failures: whatever platform list
is given and whichever submission raises, every platform still gets exactly
one results entry (the loop never aborts), and the failing platform entry
records status failed with the captured error message as data. -/
theorem fanout_isolates_platform_failures
    (submit : Platform → Except String SubmissionResult) (platforms : List Platform)
    (i : Nat) (p : Platform) (e : String)
    (hp : platforms.get? i = some p) (he : submit p = Except.error e) :
    (fanOut submit platforms).length = platforms.length ∧
    (fanOut submit platforms).get? i =
      some (p.name,
        { status := "failed", url := none, submission_id := none, error := some e }) := by
  refine ⟨fanOut_length submit platforms, ?_⟩
  rw [fanOut_get, hp]
  simp [attemptEntry, he]

theorem fanout_isolates_platform_failures_witness :
    (fanOut submitOneFailing threePlatforms).length = threePlatforms.length ∧
    (fanOut submitOneFailing threePlatforms).get? 1 =
      some ("Apple Music",
        { status := "failed", url := none, submission_id := none,
          error := some "connection refused" }) :=
  fanout_isolates_platform_failures submitOneFailing threePlatforms 1
    { name := "Apple Music", is_active := true } "connection refused" (by decide) (by rfl)

/-- C4 counterexample: the distribution task queries all platforms, so a
platform whose is_active flag is false still receives a submission attempt
and a results entry — refuting the claim that inactive platforms receive
neither. -/
theorem inactive_platform_still_gets_attempt :
    inactivePlatform.is_active = false ∧
    (Tasks.distribute_release submitOk sampleRelease [inactivePlatform]).distribution_status =
      [("Spotify",
        { status := "success", url := some "https://open.spotify.com/album/7",
          submission_id := some "spotify_7", error := none })] := by
  exact ⟨rfl, by decide⟩

/-- C4 as amended: the fan-out performs a submission attempt for every
platform row returned by the query, regardless of is_active, and each
platform, active or not, receives exactly one entry in the distribution
results, in order. -/
theorem every_platform_receives_attempt
    (submit : Platform → Except String SubmissionResult) (release : Release)
    (platforms : List Platform) :
    (Tasks.distribute_release submit release platforms).distribution_status.map Prod.fst =
      platforms.map Platform.name :=
  fanOut_map_fst submit platforms

/-- C5 counterexample: metadata whose bitrate is present and below 128000
— namely present and equal to 0 — produces no warning at all, because the
source guards the rule with Python truthiness of the bitrate, refuting the
claim that bitrate present and below 128000 always adds a warning. -/
theorem zero_bitrate_gets_no_warning :
    zeroBitrateMeta.bitrate = some 0 ∧ ((0 : Int) < 128000) ∧
    (validate_rules zeroBitrateMeta 1000000).warnings = [] ∧
    (validate_rules zeroBitrateMeta 1000000).is_valid = true := by
  refine ⟨rfl, by decide, by decide, by decide⟩

/-- C5 as amended: the four rules are evaluated independently with no
short-circuit — duration below 30 adds the only error; sample rate below
44100, bitrate present, non-zero and below 128000, and file size below
480000 each add their warning — validity is exactly emptiness of the error
list, warnings never affect it; duration 29 gives invalid with exactly one
error, and the healthy boundary metadata gives valid with no errors and no
warnings. -/
theorem validate_rules_characterized :
    (∀ (m : AudioMetadata) (file_size : Int),
      (validate_rules m file_size).errors =
        (if m.duration < 30 then ["Audio file must be at least 30 seconds long"] else []) ∧
      (validate_rules m file_size).warnings =
        ((if m.sample_rate < 44100 then ["Sample rate is below 44.1kHz"] else []) ++
         (match m.bitrate with
          | some b => if b ≠ 0 ∧ b < 128000 then ["Bitrate is below 128kbps"] else []
          | none => []) ++
         (if file_size < 480000 then ["File size seems unusually small"] else [])) ∧
      (validate_rules m file_size).is_valid = (validate_rules m file_size).errors.isEmpty) ∧
    (validate_rules shortMeta 1000000).is_valid = false ∧
    (validate_rules shortMeta 1000000).errors.length = 1 ∧
    validate_rules goodMeta 1000000 = { is_valid := true, errors := [], warnings := [] } := by
  refine ⟨?_, by decide, by decide, by decide⟩
  intro m file_size
  refine ⟨?_, ?_, ?_⟩
  · by_cases hd : m.duration < 30 <;> simp [validate_rules, hd]
  · cases hb : m.bitrate <;>
      by_cases hd : m.duration < 30 <;> by_cases hs : m.sample_rate < 44100 <;>
        by_cases hz : file_size < 480000 <;>
        simp [validate_rules, hb, hd, hs, hz] <;> split_ifs <;> simp
  · by_cases hd : m.duration < 30 <;> simp [validate_rules, hd]

/-- C6: artwork with either dimension below 1400 fails with the too-small
error; every accepted image is re-encoded as JPEG at quality 85, fits in
the 1400x1400 box, is never upscaled, keeps the aspect ratio up to integer
rounding, keeps an RGB or RGBA mode unchanged, and any other color mode is
converted to RGB before re-encoding. -/
theorem process_artwork_spec (image : ImageData) :
    (image.width < 1400 ∨ image.height < 1400 →
      process_artwork image =
        Except.error "Could not process artwork: Artwork must be at least 1400x1400 pixels") ∧
    (1400 ≤ image.width → 1400 ≤ image.height →
      ∃ out, process_artwork image = Except.ok out ∧
        out.format = "JPEG" ∧ out.quality = 85 ∧
        out.width ≤ 1400 ∧ out.height ≤ 1400 ∧
        out.width ≤ image.width ∧ out.height ≤ image.height ∧
        out.width * image.height ≤ out.height * image.width + image.height + image.width ∧
        out.height * image.width ≤ out.width * image.height + image.height + image.width ∧
        ((image.mode = "RGB" ∨ image.mode = "RGBA") → out.mode = image.mode) ∧
        (¬(image.mode = "RGB" ∨ image.mode = "RGBA") → out.mode = "RGB")) := by
  constructor
  · intro hsmall
    simp [process_artwork, hsmall]
  · intro hw hh
    have hns : ¬(image.width < 1400 ∨ image.height < 1400) := by omega
    simp only [process_artwork, if_neg hns]
    by_cases hbig : 1400 < image.width ∨ 1400 < image.height
    · rw [if_pos hbig]
      obtain ⟨b1, b2, b3, b4, b5, b6⟩ := thumbnail_bounds hw hh
      refine ⟨_, rfl, rfl, rfl, b1, b2, b3, b4, b5, b6, ?_, ?_⟩
      · intro hm; simp [if_pos hm]
      · intro hm; simp [if_neg hm]
    · rw [if_neg hbig]
      have hwle : image.width ≤ 1400 := by omega
      have hhle : image.height ≤ 1400 := by omega
      refine ⟨_, rfl, rfl, rfl, hwle, hhle, le_refl _, le_refl _, ?_, ?_, ?_, ?_⟩
      · simp only
        rw [Nat.mul_comm]
        omega
      · simp only
        rw [Nat.mul_comm]
        omega
      · intro hm; simp [if_pos hm]
      · intro hm; simp [if_neg hm]

theorem process_artwork_spec_witness :
    process_artwork smallImage =
      Except.error "Could not process artwork: Artwork must be at least 1400x1400 pixels" ∧
    process_artwork bigImage =
      Except.ok { width := 1400, height := 1400, mode := "RGB", format := "JPEG", quality := 85 } ∧
    process_artwork bigImage ≠
      Except.error "Could not process artwork: Artwork must be at least 1400x1400 pixels" := by
  refine ⟨(process_artwork_spec smallImage).1 (Or.inl (by decide)), by rfl, ?_⟩
  obtain ⟨out, hout, -⟩ := (process_artwork_spec bigImage).2 (by decide) (by decide)
  rw [hout]
  exact fun hco => Except.noConfusion hco

/-- C7: extraction fails with the file-not-found error on every missing
path, with the unsupported-format error on every existing path whose
extension is outside the supported set, with the corrupt-audio error on
every supported path whose low-level parse raises, and in every failure
case no metadata record is returned. -/
theorem extract_metadata_failure_modes (fs : FileSystem) (path : String) :
    (fs.pathExists path = false →
      extract_metadata fs path =
        Except.error (ExtractError.fileNotFound ("Audio file not found: " ++ path))) ∧
    (fs.pathExists path = true → supportedExts.contains (fileExtOf path) = false →
      extract_metadata fs path =
        Except.error
          (ExtractError.unsupportedFormat ("Unsupported audio format: " ++ fileExtOf path))) ∧
    (∀ e, fs.pathExists path = true → supportedExts.contains (fileExtOf path) = true →
      fs.parse path = Except.error e →
      extract_metadata fs path = Except.error (ExtractError.corruptAudio e)) ∧
    (∀ err m, extract_metadata fs path = Except.error err →
      extract_metadata fs path ≠ Except.ok m) := by
  refine ⟨?_, ?_, ?_, ?_⟩
  · intro h; simp [extract_metadata, h]
  · intro h1 h2
    simp only [extract_metadata, h1]
    rw [if_neg (by simp), if_pos h2]
  · intro e h1 h2 h3
    simp only [extract_metadata, h1]
    rw [if_neg (by simp), if_neg (by rw [h2]; simp), h3]
  · intro err m he hok; rw [he] at hok; exact Except.noConfusion hok

theorem extract_metadata_failure_modes_witness :
    extract_metadata witnessFS "missing.mp3" =
      Except.error (ExtractError.fileNotFound "Audio file not found: missing.mp3") ∧
    extract_metadata witnessFS "notes.txt" =
      Except.error (ExtractError.unsupportedFormat "Unsupported audio format: .txt") ∧
    extract_metadata witnessFS "song.mp3" =
      Except.error (ExtractError.corruptAudio "cannot read file header") := by
  refine ⟨(extract_metadata_failure_modes witnessFS "missing.mp3").1 ?_,
    (extract_metadata_failure_modes witnessFS "notes.txt").2.1 ?_ ?_,
    (extract_metadata_failure_modes witnessFS "song.mp3").2.2.1 "cannot read file header"
      ?_ ?_ ?_⟩ <;> rfl

/-- C8: the per-platform submission result is a deterministic function of
the release id and the platform name; its url and submission id are always
non-empty; and in the fan-out results a success entry carries both a
populated url and a populated submission id while a failed entry carries
neither, only the error message. -/
theorem submission_templating_contract :
    (∀ (r1 r2 : Release) (p1 p2 : Platform), r1.id = r2.id → p1.name = p2.name →
      distribute_to_platform r1 p1 = distribute_to_platform r2 p2) ∧
    (∀ (r : Release) (p : Platform),
      (distribute_to_platform r p).url ≠ "" ∧
      (distribute_to_platform r p).submission_id ≠ "") ∧
    (∀ (submit : Platform → Except String SubmissionResult) (platforms : List Platform)
        (i : Nat) (p : Platform),
      platforms.get? i = some p →
      ((∀ sr, submit p = Except.ok sr →
          (fanOut submit platforms).get? i =
            some (p.name,
              { status := "success", url := some sr.url,
                submission_id := some sr.submission_id, error := none })) ∧
       (∀ e, submit p = Except.error e →
          (fanOut submit platforms).get? i =
            some (p.name,
              { status := "failed", url := none, submission_id := none,
                error := some e })))) := by
  refine ⟨?_, ?_, ?_⟩
  · intro r1 r2 p1 p2 h1 h2
    simp only [distribute_to_platform, h1, h2]
  · intro r p
    constructor <;>
      · simp only [distribute_to_platform]
        split_ifs <;>
          first
          | exact append_ne_empty_left _ (by decide)
          | exact append_ne_empty_left _ (append_ne_empty_right _ (by decide))
  · intro submit platforms i p hp
    constructor
    · intro sr hs
      rw [fanOut_get, hp]
      simp [attemptEntry, hs]
    · intro e he
      rw [fanOut_get, hp]
      simp [attemptEntry, he]

theorem submission_templating_contract_witness :
    distribute_to_platform sampleRelease { name := "Spotify", is_active := true } =
      distribute_to_platform { id := 7, status := "draft" }
        { name := "Spotify", is_active := false } ∧
    (distribute_to_platform sampleRelease inactivePlatform).url ≠ "" ∧
    (fanOut submitOneFailing threePlatforms).get? 0 =
      some ("Spotify",
        { status := "success", url := some "https://open.spotify.com/album/7",
          submission_id := some "spotify_7", error := none }) :=
  ⟨submission_templating_contract.1 sampleRelease { id := 7, status := "draft" }
      { name := "Spotify", is_active := true } { name := "Spotify", is_active := false }
      rfl rfl,
   (submission_templating_contract.2.1 sampleRelease inactivePlatform).1,
   (submission_templating_contract.2.2 submitOneFailing threePlatforms 0
      { name := "Spotify", is_active := true } (by rfl)).1
     (distribute_to_platform sampleRelease { name := "Spotify", is_active := true }) (by rfl)⟩

/-- C9: for every cutoff and scan list, the housekeeping loop removes
exactly the regular files strictly older than the cutoff whose removal
succeeds, retaining everything else in place, and a removal that fails
because the file already vanished is benign — it is skipped and the
remaining files are still processed, as the splitting law states. -/
theorem cleanup_removes_exactly_old_regular_files (cutoff : Int) (files : List ScannedFile) :
    cleanup_old_files cutoff files =
      (files.filter
        (fun f => f.is_file && decide (f.mtime < cutoff) && f.present_at_remove)).map
        ScannedFile.path ∧
    (∀ (pre post : List ScannedFile) (f : ScannedFile), f.present_at_remove = false →
      cleanup_old_files cutoff (pre ++ f :: post) =
        cleanup_old_files cutoff pre ++ cleanup_old_files cutoff post) := by
  have key : ∀ (l : List ScannedFile),
      cleanup_old_files cutoff l =
        (l.filter
          (fun f => f.is_file && decide (f.mtime < cutoff) && f.present_at_remove)).map
          ScannedFile.path := by
    intro l
    induction l with
    | nil => rfl
    | cons f rest ih =>
        by_cases hf : f.is_file <;> by_cases hm : f.mtime < cutoff <;>
          by_cases hp : f.present_at_remove <;>
          simp [cleanup_old_files, List.filter_cons, hf, hm, hp, ih]
  refine ⟨key files, ?_⟩
  intro pre post f hfp
  rw [key, key, key, List.filter_append, List.filter_cons]
  simp [hfp]

theorem cleanup_removes_exactly_old_regular_files_witness :
    cleanup_old_files 100 ([oldFileA] ++ vanishedFile :: [newFile]) =
      cleanup_old_files 100 [oldFileA] ++ cleanup_old_files 100 [newFile] :=
  (cleanup_removes_exactly_old_regular_files 100
      ([oldFileA] ++ vanishedFile :: [newFile])).2 [oldFileA] [newFile] vanishedFile (by rfl)

/-- C10: the validation entry point is total over its oracle inputs — every
extraction failure, including missing paths, unsupported extensions and
corrupt files, is converted into a returned result with is_valid false,
exactly one error string and no warnings, and on every input the returned
is_valid equals emptiness of the error list. -/
theorem validate_audio_file_total_invariant (fs : FileSystem) (path : String) :
    ((validate_audio_file fs path).is_valid =
      (validate_audio_file fs path).errors.isEmpty) ∧
    (∀ e, extract_metadata fs path = Except.error e →
      validate_audio_file fs path =
        { is_valid := false,
          errors := ["Could not validate audio file: " ++ e.msg],
          warnings := [] }) := by
  constructor
  · unfold validate_audio_file
    cases hx : extract_metadata fs path with
    | error e => rfl
    | ok metadata =>
        cases hs : fs.getsize path with
        | error e => rfl
        | ok file_size =>
            unfold validate_rules
            by_cases hd : metadata.duration < 30 <;> simp [hd]
  · intro e he
    unfold validate_audio_file
    rw [he]

theorem validate_audio_file_total_invariant_witness :
    ((validate_audio_file witnessFS "missing.mp3").is_valid =
      (validate_audio_file witnessFS "missing.mp3").errors.isEmpty) ∧
    validate_audio_file witnessFS "missing.mp3" =
      { is_valid := false,
        errors := ["Could not validate audio file: Audio file not found: missing.mp3"],
        warnings := [] } :=
  ⟨(validate_audio_file_total_invariant witnessFS "missing.mp3").1,
   (validate_audio_file_total_invariant witnessFS "missing.mp3").2
     (ExtractError.fileNotFound "Audio file not found: missing.mp3") (by rfl)⟩

end Veestributes
